import Mathlib

/-!
Shallow embedding of the audionotes frontend client (src/unnamed/part_000 and
src/src/App.tsx): the upload/list/rename/delete controller, the client-side
audio-file validator, the byte formatter and the recording finalizer, together
with proofs of the behavioural properties claimed for them.

JavaScript strings are `String`, byte counts are integers (`Nat`/`Int`: every
call site passes an integral byte count), nullable fields are `Option`, and
each network operation is a pure step function from the pre-state and the
response outcome to the post-state, paired with a flag recording whether a
network request was issued.
-/

namespace AudioNotes

/-- Substring search on character lists: does `pat` occur contiguously in `s`?
The empty pattern occurs everywhere. -/
def containsSub (s pat : List Char) : Bool :=
  match s with
  | [] => pat.isEmpty
  | _ :: t => pat.isPrefixOf s || containsSub t pat

/-- JS `String.prototype.includes`: substring containment. -/
def jsIncludes (s pat : String) : Bool :=
  containsSub s.data pat.data

/-- JS `String.prototype.startsWith`. -/
def jsStartsWith (s pat : String) : Bool :=
  pat.data.isPrefixOf s.data

/-- JS `String.prototype.toLowerCase` (ASCII folding, as for MIME types). -/
def jsToLower (s : String) : String :=
  ⟨s.data.map Char.toLower⟩

/-- JS `String.prototype.trim`: strip leading and trailing whitespace. -/
def jsTrim (s : String) : String :=
  ⟨((s.data.dropWhile Char.isWhitespace).reverse.dropWhile Char.isWhitespace).reverse⟩

/-- JS `x?.error || fallback` on an optional string field: the field's text
when it is present and non-empty (JS truthiness), the fallback otherwise. -/
def jsOrElse (o : Option String) (fallback : String) : String :=
  match o with
  | some s => if s = "" then fallback else s
  | none => fallback

/-- `res.ok`: HTTP status in the 2xx range. -/
def isOkStatus (status : Nat) : Bool :=
  200 ≤ status && status ≤ 299

/-- The `UploadItem` record mirrored from the backend (part_000 lines 5-14). -/
structure UploadItem where
  _id : String
  originalName : String
  mimeType : String
  size : Nat
  storageFilename : String
  transcription : Option String
  createdAt : String
  url : String
deriving DecidableEq, Repr

/-- A browser `File` as the client observes it: name, reported MIME type,
size in bytes. -/
structure JSFile where
  name : String
  type : String
  size : Nat
deriving DecidableEq, Repr

/-- `ALLOWED_AUDIO_TYPES` (part_000 lines 17-26). -/
def ALLOWED_AUDIO_TYPES : List String :=
  ["audio/webm", "audio/mp3", "audio/mpeg", "audio/wav",
   "audio/ogg", "audio/mp4", "audio/x-wav", "audio/flac"]

def MAX_FILE_SIZE_MB : Nat := 25

def MAX_FILE_SIZE_BYTES : Nat := MAX_FILE_SIZE_MB * 1024 * 1024

/-- JS `t.split('/')[1]`: the subtype token of a MIME type, i.e. what follows
the first slash up to the next one. Every entry of `ALLOWED_AUDIO_TYPES`
contains exactly one slash. -/
def subtypeToken (t : String) : String :=
  ⟨((t.data.dropWhile (· ≠ '/')).drop 1).takeWhile (· ≠ '/')⟩

/-- The type test inside `isValidAudioFile` (part_000 lines 39-41):
`type.startsWith('audio/') || ALLOWED_AUDIO_TYPES.some((t) => type.includes(t.split('/')[1]))`
on the lowercased reported type (`file.type?.toLowerCase() || ''`). -/
def audioTypeAllowed (f : JSFile) : Bool :=
  let type := jsToLower f.type
  jsStartsWith type "audio/" || ALLOWED_AUDIO_TYPES.any (fun t => jsIncludes type (subtypeToken t))

/-- The result type of `isValidAudioFile`: `{ ok: true } | { ok: false; message }`. -/
inductive ValidationResult where
  | ok : ValidationResult
  | error (message : String) : ValidationResult
deriving DecidableEq, Repr

/-- The rejection message for a non-audio type (part_000 line 43). -/
def invalidTypeMessage (reportedType : String) : String :=
  let displayType := if reportedType = "" then "unknown" else reportedType
  s!"Invalid file type: {displayType}. Use audio files (e.g. MP3, WAV, WebM)."

/-- The rejection message for an oversized file (part_000 line 46). -/
def tooLargeMessage : String :=
  s!"File too large. Max {MAX_FILE_SIZE_MB} MB."

/-- `isValidAudioFile` (part_000 lines 38-49). -/
def isValidAudioFile (f : JSFile) : ValidationResult :=
  if !(audioTypeAllowed f) then
    .error (invalidTypeMessage f.type)
  else if f.size > MAX_FILE_SIZE_BYTES then
    .error tooLargeMessage
  else
    .ok

/-- A JS `number` argument to `formatBytes`: NaN, the infinities, or a finite
value. Every caller passes an integral byte count, so the finite payload is an
integer. -/
inductive JSNum where
  | nan : JSNum
  | posInf : JSNum
  | negInf : JSNum
  | finite (n : Int) : JSNum
deriving DecidableEq, Repr

/-- `Number.isFinite`. -/
def jsIsFinite : JSNum → Bool
  | .finite _ => true
  | _ => false

/-- `Math.min(Math.floor(Math.log(bytes) / Math.log(1024)), units.length - 1)`
for a positive integer `bytes`, written out by the powers of 1024: the floor of
the base-1024 logarithm, capped at 3. -/
def unitIndex (n : Nat) : Nat :=
  if n < 1024 then 0
  else if n < 1024 ^ 2 then 1
  else if n < 1024 ^ 3 then 2
  else 3

/-- JS `(n / den).toFixed(1)` on the exact fraction `n / den` (`den > 0`):
one decimal digit, rounding half up, so the digits are those of
`(n / den) * 10 + 1 / 2` rounded down, i.e. `(20 * n + den) / (2 * den)`.
Exact on the inputs the claims exercise, where `(n / den) * 10` is an
integer. -/
def toFixed1Frac (n den : Nat) : String :=
  let m := (20 * n + den) / (2 * den)
  s!"{m / 10}.{m % 10}"

/-- JS `(n / den).toFixed(0)` on the exact fraction `n / den` (`den > 0`):
round half up to an integer, `(2 * n + den) / (2 * den)`. -/
def toFixed0Frac (n den : Nat) : String :=
  s!"{(2 * n + den) / (2 * den)}"

/-- `formatBytes` (part_000 lines 30-36, App.tsx lines 14-20). The double
`value = bytes / 1024 ** idx` is kept as the exact fraction
`n / 1024 ^ idx` and handed to the `toFixed` models above; exact real
arithmetic stands in for IEEE doubles, and the two agree on the inputs the
claims exercise. -/
def formatBytes (bytes : JSNum) : String :=
  match bytes with
  | .finite n =>
    if n ≤ 0 then "0 B"
    else
      let units := ["B", "KB", "MB", "GB"]
      let idx := unitIndex n.toNat
      let den := 1024 ^ idx
      let rendered := if idx = 0 then toFixed0Frac n.toNat den else toFixed1Frac n.toNat den
      let unit := units.getD idx ""
      s!"{rendered} {unit}"
  | _ => "0 B"

/-- The component's reactive state: one field per `useState` hook of `App`
(part_000 lines 52-61). -/
structure AppState where
  uploads : List UploadItem
  isLoadingList : Bool
  isUploading : Bool
  error : Option String
  isRecording : Bool
  recordingUrl : Option String
  recordedFile : Option JSFile
  deletingId : Option String
  editingId : Option String
  editingName : String
deriving DecidableEq, Repr

/-- The initial state: the `useState` initializers of `App`. -/
def initialState : AppState where
  uploads := []
  isLoadingList := true
  isUploading := false
  error := none
  isRecording := false
  recordingUrl := none
  recordedFile := none
  deletingId := none
  editingId := none
  editingName := ""

/-- The outcome of the `GET /api/uploads` fetch as `fetchUploads` observes it:
either the fetch itself throws (network error carrying the thrown `Error`'s
message), or a response arrives with an HTTP status, an optional `error`
field extracted from the body, and — on the success path — the body parsed as
an `UploadItem` array (`none` models `res.json()` throwing on a malformed
body). -/
inductive ListOutcome where
  | netErr (msg : String) : ListOutcome
  | resp (status : Nat) (errField : Option String) (data : Option (List UploadItem)) : ListOutcome
deriving DecidableEq, Repr

/-- The outcome of a `POST`/`PATCH`/`DELETE` request: a thrown network error,
or a response with a status and an optional body `error` field. -/
inductive ReqOutcome where
  | netErr (msg : String) : ReqOutcome
  | resp (status : Nat) (errField : Option String) : ReqOutcome
deriving DecidableEq, Repr

/-- `fetchUploads` (part_000 lines 69-85), as a pure step function from the
pre-state and the fetch outcome to the post-state. `setIsLoadingList(true)`
and `setError(null)` run first; a non-2xx status throws the body's `error`
text or `Failed to fetch (status)`; on a 2xx status the parsed array replaces
`uploads` wholesale, and a body that fails to parse throws (message modelled
as the thrown message text); every throw is caught and stored in `error`;
`finally` clears `isLoadingList`. -/
def fetchUploads (s : AppState) (out : ListOutcome) : AppState :=
  let s1 := { s with isLoadingList := true, error := none }
  let s2 :=
    match out with
    | .netErr msg => { s1 with error := some msg }
    | .resp status errField data =>
      if isOkStatus status then
        match data with
        | some items => { s1 with uploads := items }
        | none => { s1 with error := some "Failed to fetch uploads" }
      else
        { s1 with error := some (jsOrElse errField s!"Failed to fetch ({status})") }
  { s2 with isLoadingList := false }

/-- The outcome of `uploadFile`'s `POST /api/uploads`: when the POST succeeds,
`fetchUploads` runs next, so the success branch carries that nested fetch's
own outcome. -/
inductive UploadOutcome where
  | netErr (msg : String) : UploadOutcome
  | resp (status : Nat) (errField : Option String) (listOut : ListOutcome) : UploadOutcome
deriving DecidableEq, Repr

/-- `uploadFile` (part_000 lines 87-117), as a pure step function returning
the post-state and whether a network request was issued. Validation failure
stores the message and returns before any request; otherwise the POST is
issued, a non-2xx status throws the body's `error` text or
`Upload failed (status)`, a 2xx status triggers a full `fetchUploads` and, if
the uploaded file was the in-memory recording, clears the recording preview;
`finally` clears `isUploading`. -/
def uploadFile (s : AppState) (f : JSFile) (out : UploadOutcome) : AppState × Bool :=
  match isValidAudioFile f with
  | .error msg => ({ s with error := some msg }, false)
  | .ok =>
    let s1 := { s with isUploading := true, error := none }
    let s2 :=
      match out with
      | .netErr msg => { s1 with error := some msg }
      | .resp status errField listOut =>
        if isOkStatus status then
          let s3 := fetchUploads s1 listOut
          match s1.recordedFile with
          | some rf =>
            if f = rf then { s3 with recordingUrl := none, recordedFile := none } else s3
          | none => s3
        else
          { s1 with error := some (jsOrElse errField s!"Upload failed ({status})") }
    ({ s2 with isUploading := false }, true)

/-- The per-item patch inside `updateName`'s `setUploads` (part_000 line 132):
`(u) => (u._id === id ? { ...u, originalName: trimmed } : u)`. -/
def renamePatch (id trimmed : String) (u : UploadItem) : UploadItem :=
  if u._id = id then { u with originalName := trimmed } else u

/-- `updateName` (part_000 lines 119-139), as a pure step function returning
the post-state and whether a network request was issued. An empty trimmed
name returns immediately with nothing changed; otherwise the PATCH is issued,
a non-2xx status throws the body's `error` text or `Update failed (status)`,
and a 2xx status patches the matching item in place and closes the edit
form. -/
def updateName (s : AppState) (id newName : String) (out : ReqOutcome) : AppState × Bool :=
  let trimmed := jsTrim newName
  if trimmed = "" then (s, false)
  else
    let s1 := { s with error := none }
    match out with
    | .netErr msg => ({ s1 with error := some msg }, true)
    | .resp status errField =>
      if isOkStatus status then
        ({ s1 with uploads := s1.uploads.map (renamePatch id trimmed),
                   editingId := none, editingName := "" }, true)
      else
        ({ s1 with error := some (jsOrElse errField s!"Update failed ({status})") }, true)

/-- `deleteUpload` (part_000 lines 152-167), as a pure step function returning
the post-state and whether a network request was issued. The row's id is
marked as deleting and the DELETE issued; a non-2xx status throws the body's
`error` text or `Delete failed (status)`; a 2xx status filters the item out
of the list; `finally` clears `deletingId`. -/
def deleteUpload (s : AppState) (id : String) (out : ReqOutcome) : AppState × Bool :=
  let s1 := { s with deletingId := some id, error := none }
  let s2 :=
    match out with
    | .netErr msg => { s1 with error := some msg }
    | .resp status errField =>
      if isOkStatus status then
        { s1 with uploads := s1.uploads.filter (fun u => u._id ≠ id) }
      else
        { s1 with error := some (jsOrElse errField s!"Delete failed ({status})") }
  ({ s2 with deletingId := none }, true)

/-- `recorder.mimeType || 'audio/webm'`: the blob's type as built in
`recorder.onstop` (part_000 line 188). -/
def blobTypeOf (recorderMime : String) : String :=
  if recorderMime = "" then "audio/webm" else recorderMime

/-- The extension cascade of `recorder.onstop` (part_000 line 194):
`blob.type.includes('ogg') ? 'ogg' : blob.type.includes('wav') ? 'wav' : 'webm'`. -/
def extFor (blobType : String) : String :=
  if jsIncludes blobType "ogg" then "ogg"
  else if jsIncludes blobType "wav" then "wav"
  else "webm"

/-- `recorder.onstop` finalizing the recording (part_000 lines 187-196): the
accumulated chunks become one blob whose type is the recorder's reported
MIME type (defaulting to `audio/webm`), wrapped as a `File` named
`recording-<timestamp>.<ext>` with the extension derived from the blob type.
`ts` is `Date.now()` and `chunksSize` the total size of the accumulated
chunks. -/
def finalizeRecording (recorderMime : String) (ts : Nat) (chunksSize : Nat) : JSFile :=
  let blobType := blobTypeOf recorderMime
  let ext := extFor blobType
  { name := s!"recording-{ts}.{ext}", type := blobType, size := chunksSize }

/-! Concrete states and items used to instantiate the theorems below. -/

def demoItemA : UploadItem :=
  { _id := "a", originalName := "alpha.mp3", mimeType := "audio/mpeg", size := 1000,
    storageFilename := "sa", transcription := none, createdAt := "2024-01-01", url := "/u/a" }

def demoItemB : UploadItem :=
  { _id := "b", originalName := "beta.wav", mimeType := "audio/wav", size := 2000,
    storageFilename := "sb", transcription := some "hello", createdAt := "2024-01-02", url := "/u/b" }

def demoState : AppState :=
  { initialState with uploads := [demoItemA, demoItemB] }

/-- C1: a file whose (lowercased) reported MIME type neither starts with
`audio/` nor contains any of the known audio subtype tokens (webm, mp3, mpeg,
wav, ogg, mp4, x-wav, flac — the subtypes of `ALLOWED_AUDIO_TYPES`) is
rejected locally by `uploadFile`: no network request is issued, the uploads
list and the `isUploading` flag are unchanged, and the descriptive
invalid-type message is stored as the error banner. -/
theorem upload_rejects_non_audio_type (s : AppState) (f : JSFile) (out : UploadOutcome)
    (hpre : jsStartsWith (jsToLower f.type) "audio/" = false)
    (htok : ∀ t ∈ ALLOWED_AUDIO_TYPES, jsIncludes (jsToLower f.type) (subtypeToken t) = false) :
    (uploadFile s f out).2 = false ∧
    (uploadFile s f out).1.uploads = s.uploads ∧
    (uploadFile s f out).1.isUploading = s.isUploading ∧
    (uploadFile s f out).1.error = some (invalidTypeMessage f.type) := by
  have haud : audioTypeAllowed f = false := by
    simp only [audioTypeAllowed, Bool.or_eq_false_iff, List.any_eq_false]
    exact ⟨hpre, fun t ht => by simp [htok t ht]⟩
  have hval : isValidAudioFile f = .error (invalidTypeMessage f.type) := by
    simp [isValidAudioFile, haud]
  simp [uploadFile, hval]

/-- Witness for C1 at a concrete 100-byte `text/plain` file. -/
theorem upload_rejects_non_audio_type_witness :
    jsStartsWith (jsToLower "text/plain") "audio/" = false ∧
    (uploadFile initialState ⟨"notes.txt", "text/plain", 100⟩ (UploadOutcome.netErr "")).2 = false ∧
    (uploadFile initialState ⟨"notes.txt", "text/plain", 100⟩ (UploadOutcome.netErr "")).1.uploads
      = initialState.uploads := by
  refine ⟨by decide, ?_, ?_⟩
  · exact (upload_rejects_non_audio_type initialState ⟨"notes.txt", "text/plain", 100⟩
      (UploadOutcome.netErr "") (by decide) (by decide)).1
  · exact (upload_rejects_non_audio_type initialState ⟨"notes.txt", "text/plain", 100⟩
      (UploadOutcome.netErr "") (by decide) (by decide)).2.1

/-- C2 as frozen is false on the code: `isValidAudioFile` checks the type
before the size, so a 30 MB file whose type is not audio is rejected with the
invalid-type message, which does not mention the 25 MB ceiling, rather than
with a size-specific message. -/
theorem oversized_nonaudio_gets_type_message :
    (30 * 1024 * 1024 : Nat) > MAX_FILE_SIZE_BYTES ∧
    (uploadFile initialState ⟨"big.txt", "text/plain", 30 * 1024 * 1024⟩
        (UploadOutcome.netErr "")).1.error = some (invalidTypeMessage "text/plain") ∧
    jsIncludes (invalidTypeMessage "text/plain") "25" = false ∧
    invalidTypeMessage "text/plain" ≠ tooLargeMessage := by
  decide

/-- C2 amended: every file larger than the 25 MB ceiling is rejected locally
with no network request and unchanged state; the message is the size-specific
one referencing the 25 MB ceiling when the type passes the audio check, and
the invalid-type message otherwise. -/
theorem upload_rejects_oversized (s : AppState) (f : JSFile) (out : UploadOutcome)
    (hsize : f.size > MAX_FILE_SIZE_BYTES) :
    (uploadFile s f out).2 = false ∧
    (uploadFile s f out).1.uploads = s.uploads ∧
    (uploadFile s f out).1.isUploading = s.isUploading ∧
    (audioTypeAllowed f = true →
      (uploadFile s f out).1.error = some tooLargeMessage) ∧
    (audioTypeAllowed f = false →
      (uploadFile s f out).1.error = some (invalidTypeMessage f.type)) := by
  rcases haud : audioTypeAllowed f with _ | _
  · have hval : isValidAudioFile f = .error (invalidTypeMessage f.type) := by
      simp [isValidAudioFile, haud]
    simp [uploadFile, hval]
  · have hval : isValidAudioFile f = .error tooLargeMessage := by
      simp [isValidAudioFile, haud, if_pos hsize]
    simp [uploadFile, hval]

/-- Witness for the amended C2 at a concrete 30 MB `audio/wav` file: the
stored message is the size-specific one, which references the 25 MB ceiling. -/
theorem upload_rejects_oversized_witness :
    (30 * 1024 * 1024 : Nat) > MAX_FILE_SIZE_BYTES ∧
    (uploadFile initialState ⟨"big.wav", "audio/wav", 30 * 1024 * 1024⟩
        (UploadOutcome.netErr "")).2 = false ∧
    tooLargeMessage = "File too large. Max 25 MB." := by
  refine ⟨by decide, ?_, by decide⟩
  exact (upload_rejects_oversized initialState ⟨"big.wav", "audio/wav", 30 * 1024 * 1024⟩
    (UploadOutcome.netErr "") (by decide)).1

/-- C3: `updateName` with a name that trims to empty is a no-op: the state —
uploads, editing state and error banner included — is returned unchanged and
no network request is issued. -/
theorem rename_blank_is_noop (s : AppState) (id name : String) (out : ReqOutcome)
    (h : jsTrim name = "") :
    updateName s id name out = (s, false) := by
  simp [updateName, h]

/-- Witness for C3 at the whitespace-only name `"   "`. -/
theorem rename_blank_is_noop_witness :
    jsTrim "   " = "" ∧
    updateName demoState "a" "   " (ReqOutcome.netErr "x") = (demoState, false) :=
  ⟨by decide, rename_blank_is_noop demoState "a" "   " (ReqOutcome.netErr "x") (by decide)⟩

/-- C4: a successful `updateName` patches the list in place by id: the result
is the previous list mapped through `renamePatch`, so length and order are
preserved; a record whose id differs is left intact, and the record with the
given id changes only its `originalName`, which becomes the trimmed new
name. -/
theorem rename_success_patches_by_id (s : AppState) (id name : String)
    (status : Nat) (errField : Option String)
    (hname : jsTrim name ≠ "") (hok : isOkStatus status = true) :
    (updateName s id name (ReqOutcome.resp status errField)).1.uploads
      = s.uploads.map (renamePatch id (jsTrim name)) ∧
    (updateName s id name (ReqOutcome.resp status errField)).1.uploads.length
      = s.uploads.length ∧
    (∀ u : UploadItem, u._id ≠ id → renamePatch id (jsTrim name) u = u) ∧
    (∀ u : UploadItem, u._id = id →
      renamePatch id (jsTrim name) u = { u with originalName := jsTrim name }) := by
  refine ⟨?_, ?_, ?_, ?_⟩
  · simp [updateName, hname, hok]
  · simp [updateName, hname, hok]
  · intro u hu; simp [renamePatch, hu]
  · intro u hu; simp [renamePatch, hu]

/-- Witness for C4: renaming the item with id `"a"` to `"X"` in the two-item
demo state rewrites exactly that item's `originalName`. -/
theorem rename_success_patches_by_id_witness :
    jsTrim "X" ≠ "" ∧ isOkStatus 200 = true ∧
    (updateName demoState "a" "X" (ReqOutcome.resp 200 none)).1.uploads
      = demoState.uploads.map (renamePatch "a" (jsTrim "X")) ∧
    demoState.uploads.map (renamePatch "a" (jsTrim "X"))
      = [{ demoItemA with originalName := "X" }, demoItemB] := by
  refine ⟨by decide, by decide, ?_, by decide⟩
  exact (rename_success_patches_by_id demoState "a" "X" 200 none (by decide) (by decide)).1

/-- C5: after a successful `deleteUpload` on an id carried by exactly one
record (the uniqueness invariant), the result is the previous list filtered
by id: no record with that id remains, the length drops by exactly one, and
the survivors keep their relative order (the result is a sublist of the
previous list). -/
theorem remove_success_deletes_by_id (s : AppState) (id : String)
    (status : Nat) (errField : Option String)
    (huniq : (s.uploads.filter (fun u => u._id = id)).length = 1)
    (hok : isOkStatus status = true) :
    (deleteUpload s id (ReqOutcome.resp status errField)).1.uploads
      = s.uploads.filter (fun u => u._id ≠ id) ∧
    (∀ u ∈ (deleteUpload s id (ReqOutcome.resp status errField)).1.uploads, u._id ≠ id) ∧
    (deleteUpload s id (ReqOutcome.resp status errField)).1.uploads.length + 1
      = s.uploads.length ∧
    (deleteUpload s id (ReqOutcome.resp status errField)).1.uploads.Sublist s.uploads := by
  have heq : (deleteUpload s id (ReqOutcome.resp status errField)).1.uploads
      = s.uploads.filter (fun u => u._id ≠ id) := by
    simp [deleteUpload, hok]
  refine ⟨heq, ?_, ?_, ?_⟩
  · intro u hu
    rw [heq] at hu
    exact of_decide_eq_true (List.mem_filter.mp hu).2
  · rw [heq]
    have hsplit := List.length_eq_length_filter_add (l := s.uploads) (fun u => u._id = id)
    rw [hsplit, huniq]
    have : (s.uploads.filter (fun u => !(decide (u._id = id)))).length
        = (s.uploads.filter (fun u => u._id ≠ id)).length := by
      simp
    omega
  · rw [heq]
    exact List.filter_sublist s.uploads

/-- Witness for C5: deleting id `"a"` from the two-item demo state leaves the
one other item. -/
theorem remove_success_deletes_by_id_witness :
    (demoState.uploads.filter (fun u => u._id = "a")).length = 1 ∧
    (deleteUpload demoState "a" (ReqOutcome.resp 200 none)).1.uploads
      = demoState.uploads.filter (fun u => u._id ≠ "a") ∧
    (deleteUpload demoState "a" (ReqOutcome.resp 200 none)).1.uploads.length + 1
      = demoState.uploads.length := by
  refine ⟨by decide, ?_, ?_⟩
  · exact (remove_success_deletes_by_id demoState "a" 200 none (by decide) (by decide)).1
  · exact (remove_success_deletes_by_id demoState "a" 200 none (by decide) (by decide)).2.2.1

/-- Does `fetchUploads` fail on this outcome? True when the fetch throws, the
status is not 2xx, or the success body fails to parse. -/
def listOutcomeFails : ListOutcome → Bool
  | .netErr _ => true
  | .resp status _ data => !(isOkStatus status) || data.isNone

/-- C6: when the list fetch fails — the fetch throws, the status is non-2xx,
or the success body is malformed — an error message is stored and the
previously held uploads list is untouched; on a 2xx response with a parsed
body the list is replaced wholesale by that body. -/
theorem list_failure_keeps_uploads (s : AppState) (out : ListOutcome)
    (h : listOutcomeFails out = true) :
    (fetchUploads s out).uploads = s.uploads ∧
    (fetchUploads s out).error.isSome = true ∧
    (∀ (status : Nat) (errField : Option String) (items : List UploadItem),
      isOkStatus status = true →
      (fetchUploads s (ListOutcome.resp status errField (some items))).uploads = items) := by
  refine ⟨?_, ?_, ?_⟩
  · match out with
    | .netErr msg => simp [fetchUploads]
    | .resp status errField data =>
      rcases hok : isOkStatus status with _ | _
      · simp [fetchUploads, hok]
      · match data with
        | some items => simp [listOutcomeFails, hok] at h
        | none => simp [fetchUploads, hok]
  · match out with
    | .netErr msg => simp [fetchUploads]
    | .resp status errField data =>
      rcases hok : isOkStatus status with _ | _
      · simp [fetchUploads, hok]
      · match data with
        | some items => simp [listOutcomeFails, hok] at h
        | none => simp [fetchUploads, hok]
  · intro status errField items hok
    simp [fetchUploads, hok]

/-- Witness for C6: a 500 response against the demo state keeps both items
and surfaces an error, while a 200 response replaces the list wholesale. -/
theorem list_failure_keeps_uploads_witness :
    listOutcomeFails (ListOutcome.resp 500 (some "boom") none) = true ∧
    (fetchUploads demoState (ListOutcome.resp 500 (some "boom") none)).uploads
      = demoState.uploads ∧
    (fetchUploads demoState (ListOutcome.resp 500 (some "boom") none)).error.isSome = true ∧
    (fetchUploads demoState (ListOutcome.resp 200 none (some [demoItemB]))).uploads
      = [demoItemB] := by
  refine ⟨by decide, ?_, ?_, ?_⟩
  · exact (list_failure_keeps_uploads demoState (ListOutcome.resp 500 (some "boom") none)
      (by decide)).1
  · exact (list_failure_keeps_uploads demoState (ListOutcome.resp 500 (some "boom") none)
      (by decide)).2.1
  · exact (list_failure_keeps_uploads demoState (ListOutcome.resp 500 (some "boom") none)
      (by decide)).2.2 200 none [demoItemB] (by decide)

/-- C7: `formatBytes` yields `"0 B"` on every non-finite input and on every
input at most zero (so on `0` and on all negatives); `formatBytes 1024` is
`"1.0 KB"`, a value in KB units; `formatBytes 1536` is `"1.5 KB"`. -/
theorem formatBytes_spec :
    (∀ x : JSNum, jsIsFinite x = false → formatBytes x = "0 B") ∧
    (∀ n : Int, n ≤ 0 → formatBytes (JSNum.finite n) = "0 B") ∧
    formatBytes (JSNum.finite 1024) = "1.0 KB" ∧
    formatBytes (JSNum.finite 1536) = "1.5 KB" := by
  refine ⟨?_, ?_, by decide, by decide⟩
  · intro x hx
    match x with
    | .nan => rfl
    | .posInf => rfl
    | .negInf => rfl
    | .finite n => simp [jsIsFinite] at hx
  · intro n hn
    simp [formatBytes, hn]

/-- Witness for C7 at NaN, negative infinity, `-5` and `0`. -/
theorem formatBytes_spec_witness :
    formatBytes JSNum.nan = "0 B" ∧
    formatBytes JSNum.negInf = "0 B" ∧
    formatBytes (JSNum.finite (-5)) = "0 B" ∧
    formatBytes (JSNum.finite 0) = "0 B" :=
  ⟨formatBytes_spec.1 JSNum.nan rfl, formatBytes_spec.1 JSNum.negInf rfl,
   formatBytes_spec.2.1 (-5) (by decide), formatBytes_spec.2.1 0 (by decide)⟩

/-- C8 as frozen is false on the code: the `||` fallback treats an empty
backend `error` field as absent, so a response body that does contain an
`error` field — with value `""` — yields the generic status message, not the
backend-supplied text. -/
theorem empty_error_field_gets_generic_message :
    (fetchUploads initialState (ListOutcome.resp 500 (some "") none)).error
      = some "Failed to fetch (500)" ∧
    (fetchUploads initialState (ListOutcome.resp 500 (some "") none)).error
      ≠ some "" := by
  decide

/-- C8 amended: on every failing network operation the stored banner message
is the backend-supplied `error` text when the body carries a non-empty
`error` field and otherwise the operation's generic message carrying the
numeric HTTP status (`jsOrElse` is exactly that selection); the banner is
overwritten regardless of its previous content, since the pre-state `s` is
arbitrary. -/
theorem failure_messages_prefer_backend_text (s : AppState) (f : JSFile)
    (id nm : String) (status : Nat) (errField : Option String)
    (d : Option (List UploadItem)) (lo : ListOutcome)
    (hfail : isOkStatus status = false)
    (hf : isValidAudioFile f = ValidationResult.ok)
    (hnm : jsTrim nm ≠ "") :
    (fetchUploads s (ListOutcome.resp status errField d)).error
      = some (jsOrElse errField s!"Failed to fetch ({status})") ∧
    (uploadFile s f (UploadOutcome.resp status errField lo)).1.error
      = some (jsOrElse errField s!"Upload failed ({status})") ∧
    (updateName s id nm (ReqOutcome.resp status errField)).1.error
      = some (jsOrElse errField s!"Update failed ({status})") ∧
    (deleteUpload s id (ReqOutcome.resp status errField)).1.error
      = some (jsOrElse errField s!"Delete failed ({status})") ∧
    (∀ t fallback : String, t ≠ "" → jsOrElse (some t) fallback = t) ∧
    (∀ fallback : String, jsOrElse none fallback = fallback) ∧
    (∀ fallback : String, jsOrElse (some "") fallback = fallback) := by
  refine ⟨?_, ?_, ?_, ?_, ?_, ?_, ?_⟩
  · simp [fetchUploads, hfail]
  · simp [uploadFile, hf, hfail]
  · simp [updateName, hnm, hfail]
  · simp [deleteUpload, hfail]
  · intro t fallback ht; simp [jsOrElse, ht]
  · intro fallback; rfl
  · intro fallback; rfl

/-- Witness for the amended C8: a 500 response with body error `"boom"`
stores `"boom"` over a previous banner, for each of the four operations. -/
theorem failure_messages_prefer_backend_text_witness :
    isOkStatus 500 = false ∧
    (fetchUploads { initialState with error := some "old" }
        (ListOutcome.resp 500 (some "boom") none)).error
      = some (jsOrElse (some "boom") "Failed to fetch (500)") ∧
    (updateName { initialState with error := some "old" } "a" "X"
        (ReqOutcome.resp 500 (some "boom"))).1.error
      = some (jsOrElse (some "boom") "Update failed (500)") ∧
    (deleteUpload { initialState with error := some "old" } "a"
        (ReqOutcome.resp 500 (some "boom"))).1.error
      = some (jsOrElse (some "boom") "Delete failed (500)") ∧
    jsOrElse (some "boom") "Failed to fetch (500)" = "boom" := by
  refine ⟨by decide, ?_, ?_, ?_, by decide⟩
  · exact (failure_messages_prefer_backend_text { initialState with error := some "old" }
      ⟨"a.mp3", "audio/mp3", 10⟩ "a" "X" 500 (some "boom") none (ListOutcome.netErr "")
      (by decide) (by decide) (by decide)).1
  · exact (failure_messages_prefer_backend_text { initialState with error := some "old" }
      ⟨"a.mp3", "audio/mp3", 10⟩ "a" "X" 500 (some "boom") none (ListOutcome.netErr "")
      (by decide) (by decide) (by decide)).2.2.1
  · exact (failure_messages_prefer_backend_text { initialState with error := some "old" }
      ⟨"a.mp3", "audio/mp3", 10⟩ "a" "X" 500 (some "boom") none (ListOutcome.netErr "")
      (by decide) (by decide) (by decide)).2.2.2.1

/-- `toString` on a string is the string itself. -/
theorem toString_of_string (s : String) : toString s = s := rfl

/-- C9: the file finalized on recording stop is named
`recording-<timestamp>.<ext>` where the extension follows the cascade on the
blob's MIME type (the recorder's reported encoding, defaulting to
`audio/webm`): `ogg` when the type contains `ogg`, else `wav` when it
contains `wav`, else `webm`. -/
theorem recording_filename_follows_blob_type (recorderMime : String) (ts chunksSize : Nat) :
    (finalizeRecording recorderMime ts chunksSize).name
      = "recording-" ++ toString ts ++ "."
        ++ (if jsIncludes (blobTypeOf recorderMime) "ogg" then "ogg"
            else if jsIncludes (blobTypeOf recorderMime) "wav" then "wav"
            else "webm") ∧
    (finalizeRecording recorderMime ts chunksSize).type = blobTypeOf recorderMime := by
  constructor
  · simp [finalizeRecording, extFor, toString_of_string, String.append_empty,
      String.append_assoc]
  · rfl

/-- C10: the known-token check matches the subtype by substring containment,
so non-audio MIME types carrying an audio subtype token pass the validator —
`video/mp4`, `video/webm` and `video/ogg` do not start with `audio/`, yet
each is accepted by `isValidAudioFile` and submitted to the backend by
`uploadFile`. -/
theorem video_types_pass_validator :
    jsStartsWith (jsToLower "video/mp4") "audio/" = false ∧
    jsStartsWith (jsToLower "video/webm") "audio/" = false ∧
    jsStartsWith (jsToLower "video/ogg") "audio/" = false ∧
    isValidAudioFile ⟨"v.mp4", "video/mp4", 4⟩ = ValidationResult.ok ∧
    isValidAudioFile ⟨"v.webm", "video/webm", 4⟩ = ValidationResult.ok ∧
    isValidAudioFile ⟨"v.ogg", "video/ogg", 4⟩ = ValidationResult.ok ∧
    (uploadFile initialState ⟨"v.mp4", "video/mp4", 4⟩ (UploadOutcome.netErr "")).2 = true ∧
    (uploadFile initialState ⟨"v.webm", "video/webm", 4⟩ (UploadOutcome.netErr "")).2 = true ∧
    (uploadFile initialState ⟨"v.ogg", "video/ogg", 4⟩ (UploadOutcome.netErr "")).2 = true := by
  decide

end AudioNotes
